import Mathlib

/-!
Verification development for the real-estate analytics core:
a shallow embedding of app/analytics/financial_calculator.py and
app/analytics/monte_carlo.py.

Modelling conventions
- Python floats are modelled by exact rationals; the claims checked here do
  not depend on binary floating-point artifacts.
- Python float rounding round(x, k) is modelled by rounding x * 10^k to the
  nearest integer.
- Fallible Python code (KeyError, ZeroDivisionError, TypeError, ValueError)
  is modelled with Option / Except String; an error value corresponds to a
  raised exception.
- A property mapping is modelled as an association list of numeric fields
  plus a separate association list for the monthly_expenses sub-mapping.
- The random draws of the Monte Carlo simulator, the numerical IRR root
  finder, and the square root used by std are modelled as oracle parameters
  (the claims checked here hold for every value of those oracles, which
  covers every possible behaviour of the concrete random or numeric source).
-/

/-- Association-list lookup, the model of Python dict access d.get(k). -/
def alist_get? {α : Type} (m : List (String × α)) (k : String) : Option α :=
  (m.find? (fun kv => kv.1 == k)).map (fun kv => kv.2)

/-- Model of Python dict assignment d[k] = v (keeps insertion order). -/
def alist_set {α : Type} (m : List (String × α)) (k : String) (v : α) : List (String × α) :=
  if m.any (fun kv => kv.1 == k) then
    m.map (fun kv => if kv.1 == k then (k, v) else kv)
  else
    m ++ [(k, v)]

/-- The property mapping held by FinancialCalculator: numeric top-level
fields together with the monthly_expenses sub-mapping. -/
structure PropertyData where
  top : List (String × ℚ)
  monthly_expenses : List (String × ℚ)
deriving DecidableEq

/-- Lookup of a top-level numeric property field. -/
def pget? (p : PropertyData) (k : String) : Option ℚ :=
  alist_get? p.top k

/-- Model of expenses.get(k, 0) on the monthly_expenses sub-mapping. -/
def eget (p : PropertyData) (k : String) : ℚ :=
  (alist_get? p.monthly_expenses k).getD 0

/-- Model of Python round(x, 2). -/
def round2 (x : ℚ) : ℚ := (round (x * 100) : ℚ) / 100

/-- Model of Python round(x, 3). -/
def round3 (x : ℚ) : ℚ := (round (x * 1000) : ℚ) / 1000

/-- The required_fields list of FinancialCalculator._validate_inputs. -/
def required_fields : List String :=
  ["purchase_price", "down_payment", "loan_amount",
   "interest_rate", "loan_term_years", "monthly_rent"]

/-- FinancialCalculator._validate_inputs: raises on the first required field
missing from the property mapping, naming the field. -/
def validate_inputs (p : PropertyData) : Except String Unit :=
  match required_fields.find? (fun f => (pget? p f).isNone) with
  | some f => Except.error ("Missing required field: " ++ f)
  | none => Except.ok ()

/-- FinancialCalculator.calculate_monthly_payment.
none models a raised exception: a missing field, or division by zero when
num_payments = 0 (rate 0) or when (1+r)^n - 1 = 0 (rate nonzero), or a
number of payments that is not a nonnegative integer (in which case the
Python real-valued power law leaves the rational model). -/
def calculate_monthly_payment (p : PropertyData) : Option ℚ := do
  let principal ← pget? p "loan_amount"
  let interest_rate ← pget? p "interest_rate"
  let loan_term_years ← pget? p "loan_term_years"
  let monthly_rate := interest_rate / 100 / 12
  let num_payments := loan_term_years * 12
  if num_payments.den = 1 ∧ 0 ≤ num_payments.num then
    let n := num_payments.num.toNat
    if monthly_rate = 0 then
      if num_payments = 0 then none
      else some (principal / num_payments)
    else
      let denom := (1 + monthly_rate) ^ n - 1
      if denom = 0 then none
      else some (round2 (principal * (monthly_rate * (1 + monthly_rate) ^ n) / denom))
  else none

/-- FinancialCalculator.calculate_total_monthly_expenses: sum of the seven
recognized monthly expense categories (missing categories default to 0). -/
def calculate_total_monthly_expenses (p : PropertyData) : ℚ :=
  round2 (eget p "property_tax" + eget p "insurance" + eget p "maintenance" +
          eget p "vacancy_allowance" + eget p "property_management" +
          eget p "hoa_fees" + eget p "other_expenses")

/-- FinancialCalculator.calculate_monthly_cash_flow. -/
def calculate_monthly_cash_flow (p : PropertyData) : Option ℚ := do
  let monthly_rent ← pget? p "monthly_rent"
  let monthly_payment ← calculate_monthly_payment p
  some (round2 (monthly_rent - monthly_payment - calculate_total_monthly_expenses p))

/-- FinancialCalculator.calculate_annual_cash_flow. -/
def calculate_annual_cash_flow (p : PropertyData) : Option ℚ := do
  let monthly ← calculate_monthly_cash_flow p
  some (round2 (monthly * 12))

/-- FinancialCalculator.calculate_noi. -/
def calculate_noi (p : PropertyData) : Option ℚ := do
  let monthly_rent ← pget? p "monthly_rent"
  some (round2 (monthly_rent * 12 - calculate_total_monthly_expenses p * 12))

/-- FinancialCalculator.calculate_cap_rate: NOI / purchase_price, guarded. -/
def calculate_cap_rate (p : PropertyData) : Option ℚ := do
  let noi ← calculate_noi p
  let purchase_price ← pget? p "purchase_price"
  if purchase_price = 0 then some 0
  else some (round3 (noi / purchase_price * 100))

/-- FinancialCalculator.calculate_cash_on_cash_return, guarded on the
cash basis down_payment + closing_costs. -/
def calculate_cash_on_cash_return (p : PropertyData) : Option ℚ := do
  let annual_cash_flow ← calculate_annual_cash_flow p
  let down_payment ← pget? p "down_payment"
  let total_investment := down_payment + eget p "closing_costs"
  if total_investment = 0 then some 0
  else some (round3 (annual_cash_flow / total_investment * 100))

/-- FinancialCalculator.calculate_dscr: NOI / annual debt service, guarded. -/
def calculate_dscr (p : PropertyData) : Option ℚ := do
  let noi ← calculate_noi p
  let monthly_payment ← calculate_monthly_payment p
  let annual_debt_service := monthly_payment * 12
  if annual_debt_service = 0 then some 0
  else some (round3 (noi / annual_debt_service))

/-- FinancialCalculator.calculate_break_even_ratio, guarded on monthly_rent.
Note the monthly payment is computed before the guard, as in the source. -/
def calculate_break_even_ratio (p : PropertyData) : Option ℚ := do
  let monthly_payment ← calculate_monthly_payment p
  let monthly_expenses := calculate_total_monthly_expenses p
  let monthly_rent ← pget? p "monthly_rent"
  if monthly_rent = 0 then some 0
  else some (round3 ((monthly_payment + monthly_expenses) / monthly_rent))

/-- FinancialCalculator.calculate_gross_rent_multiplier, guarded on annual rent. -/
def calculate_gross_rent_multiplier (p : PropertyData) : Option ℚ := do
  let purchase_price ← pget? p "purchase_price"
  let monthly_rent ← pget? p "monthly_rent"
  let annual_rent := monthly_rent * 12
  if annual_rent = 0 then some 0
  else some (round2 (purchase_price / annual_rent))

/-- The three metrics recorded per scenario of sensitivity_analysis. -/
structure ScenarioMetrics where
  cash_flow : ℚ
  cap_rate : ℚ
  coc_return : ℚ
deriving DecidableEq

/-- Model of Python int() truncation toward zero on a rational. -/
def pyTrunc (q : ℚ) : ℤ := if 0 ≤ q then ⌊q⌋ else -⌊-q⌋

/-- The scenario key string of sensitivity_analysis. -/
def scenarioKey (varname : String) (multiplier : ℚ) : String :=
  varname ++ "_" ++ toString (pyTrunc (multiplier * 100)) ++ "%"

/-- The loop body of FinancialCalculator.sensitivity_analysis over the three
multipliers. The PropertyData component of the result is the state of
self.property when the loop finishes or when an exception escapes; note that
on a metric exception the mutated state p1 is left in place, exactly as in
the source (the restore line is only reached on success). -/
def sensMutate (p : PropertyData) (varname : String) (newval : ℚ) : PropertyData :=
  { p with top := alist_set p.top varname newval }

def sensLoop (p : PropertyData) (varname : String) (original_value : ℚ) :
    List ℚ → PropertyData × Except String (List (String × ScenarioMetrics))
  | [] => (p, Except.ok [])
  | multiplier :: rest =>
    match calculate_monthly_cash_flow (sensMutate p varname (original_value * multiplier)),
          calculate_cap_rate (sensMutate p varname (original_value * multiplier)),
          calculate_cash_on_cash_return (sensMutate p varname (original_value * multiplier)) with
    | some cf, some cr, some coc =>
      (match sensLoop p varname original_value rest with
       | (pf, Except.ok l) =>
         (pf, Except.ok ((scenarioKey varname multiplier, ⟨cf, cr, coc⟩) :: l))
       | (pf, Except.error e) => (pf, Except.error e))
    | _, _, _ =>
      (sensMutate p varname (original_value * multiplier),
       Except.error "metric computation raised")

/-- FinancialCalculator.sensitivity_analysis. The first component is the
final state of self.property (the calculator state observed after the call,
whether it returned or raised). -/
def sensitivity_analysis (p : PropertyData) (varname : String) (range_percent : ℚ) :
    PropertyData × Except String (List (String × ScenarioMetrics)) :=
  match pget? p varname with
  | none => (p, Except.error ("Variable " ++ varname ++ " not found in property data"))
  | some original_value =>
    if original_value = 0 then
      (p, Except.error ("Variable " ++ varname ++ " not found in property data"))
    else
      sensLoop p varname original_value
        [1 - range_percent, 1, 1 + range_percent]

/-! ### Monte Carlo simulator (app/analytics/monte_carlo.py) -/

/-- Conversion of a Python expression that may be a missing value into an
Except computation (a raised KeyError or ValueError). -/
def toExcept {α : Type} (o : Option α) : Except String α :=
  match o with
  | some a => Except.ok a
  | none => Except.error "raised"

/-- Whether an Except computation returned normally. -/
def exceptIsOk {α : Type} : Except String α → Bool
  | Except.ok _ => true
  | Except.error _ => false

/-- The value of a successful Except computation, with a fallback default. -/
def okD {α : Type} (x : Except String α) (dflt : α) : α :=
  match x with
  | Except.ok a => a
  | Except.error _ => dflt

/-- Caller-supplied simulation parameters: any subset of the nine keys
recognized by MonteCarloSimulator._validate_params. -/
structure SimParamsIn where
  simulations : Option ℕ
  years : Option ℕ
  rent_growth_range : Option (List ℚ)
  expense_volatility : Option ℚ
  vacancy_rate_range : Option (List ℚ)
  interest_rate_volatility : Option ℚ
  appreciation_range : Option (List ℚ)
  major_repair_probability : Option ℚ
  major_repair_cost_range : Option (List ℚ)
deriving DecidableEq

/-- Empty caller parameter set (all keys omitted). -/
def noParams : SimParamsIn :=
  ⟨none, none, none, none, none, none, none, none, none⟩

/-- The merged simulation parameter record (all nine keys present). -/
structure SimConfig where
  simulations : ℕ
  years : ℕ
  rent_growth_range : List ℚ
  expense_volatility : ℚ
  vacancy_rate_range : List ℚ
  interest_rate_volatility : ℚ
  appreciation_range : List ℚ
  major_repair_probability : ℚ
  major_repair_cost_range : List ℚ
deriving DecidableEq, Inhabited

/-- The default_params of MonteCarloSimulator._validate_params. -/
def defaultConfig : SimConfig :=
  { simulations := 10000
    years := 10
    rent_growth_range := [2/100, 5/100]
    expense_volatility := 1/10
    vacancy_rate_range := [5/100, 15/100]
    interest_rate_volatility := 2/100
    appreciation_range := [2/100, 4/100]
    major_repair_probability := 1/10
    major_repair_cost_range := [5000, 15000] }

/-- Shallow dict merge of caller params over a base record, the model of
a Python dict update of base by the supplied keys. -/
def mergeParams (base : SimConfig) (p : SimParamsIn) : SimConfig :=
  { simulations := p.simulations.getD base.simulations
    years := p.years.getD base.years
    rent_growth_range := p.rent_growth_range.getD base.rent_growth_range
    expense_volatility := p.expense_volatility.getD base.expense_volatility
    vacancy_rate_range := p.vacancy_rate_range.getD base.vacancy_rate_range
    interest_rate_volatility := p.interest_rate_volatility.getD base.interest_rate_volatility
    appreciation_range := p.appreciation_range.getD base.appreciation_range
    major_repair_probability := p.major_repair_probability.getD base.major_repair_probability
    major_repair_cost_range := p.major_repair_cost_range.getD base.major_repair_cost_range }

/-- MonteCarloSimulator._validate_params: merge caller params over the
defaults, then check that each of the three named range keys has exactly
two elements. No other validation is performed in the source. -/
def validate_params (p : SimParamsIn) : Except String SimConfig :=
  let validated := mergeParams defaultConfig p
  if validated.rent_growth_range.length ≠ 2 then
    Except.error "rent_growth_range must be a list of two values [min, max]"
  else if validated.vacancy_rate_range.length ≠ 2 then
    Except.error "vacancy_rate_range must be a list of two values [min, max]"
  else if validated.appreciation_range.length ≠ 2 then
    Except.error "appreciation_range must be a list of two values [min, max]"
  else
    Except.ok validated

/-- The random draws consumed by one simulated year. The simulator draws
them from numpy generators; the embedding takes them as an oracle, so every
theorem below holds for every possible random stream. -/
structure YearDraw where
  rent_growth : ℚ
  expense_multiplier : ℚ
  vacancy_rate : ℚ
  appreciation_rate : ℚ
  repair_roll : ℚ
  repair_cost : ℚ

/-- The per-year loop of MonteCarloSimulator._run_single_simulation.
Arguments: draw oracle, major_repair_probability, fixed monthly payment,
initial monthly expenses; then current year index, years remaining, current
rent, current property value. Returns (final rent, final property value,
annual cash flows in year order). -/
def simYears (draw : ℕ → YearDraw) (repair_prob payment initial_expenses : ℚ) :
    ℕ → ℕ → ℚ → ℚ → ℚ × ℚ × List ℚ
  | _, 0, rent, value => (rent, value, [])
  | y, k + 1, rent, value =>
    let d := draw y
    let major_repair_cost := if d.repair_roll < repair_prob then d.repair_cost else 0
    let current_rent := rent * (1 + d.rent_growth)
    let effective_monthly_rent := current_rent * (1 - d.vacancy_rate)
    let current_expenses := initial_expenses * d.expense_multiplier
    let monthly_cash_flow := effective_monthly_rent - payment - current_expenses
    let annual_cash_flow := monthly_cash_flow * 12 - major_repair_cost
    let rest := simYears draw repair_prob payment initial_expenses (y + 1) k
      current_rent (value * (1 + d.appreciation_rate))
    (rest.1, rest.2.1, annual_cash_flow :: rest.2.2)

/-- Insertion into a sorted rational list. -/
def insertSorted (x : ℚ) : List ℚ → List ℚ
  | [] => [x]
  | y :: ys => if x ≤ y then x :: y :: ys else y :: insertSorted x ys

/-- Ascending sort of a rational list. -/
def sortQ (xs : List ℚ) : List ℚ := xs.foldr insertSorted []

/-- Smallest element, the model of Python min(xs) / np.min. -/
def minQ? : List ℚ → Option ℚ
  | [] => none
  | x :: xs => some (xs.foldl (fun a b => if b < a then b else a) x)

/-- Largest element, the model of Python max(xs) / np.max. -/
def maxQ? : List ℚ → Option ℚ
  | [] => none
  | x :: xs => some (xs.foldl (fun a b => if a < b then b else a) x)

/-- Arithmetic mean, the model of np.mean on a nonempty vector. -/
def meanQ (xs : List ℚ) : ℚ := xs.sum / (xs.length : ℚ)

/-- Population variance; np.std is the square root of this value. -/
def varQ (xs : List ℚ) : ℚ := meanQ (xs.map (fun x => (x - meanQ xs) ^ 2))

/-- np.percentile with the default linear interpolation between closest
ranks, which is exact rational arithmetic. -/
def percentileQ (xs : List ℚ) (q : ℚ) : ℚ :=
  let s := sortQ xs
  let n := s.length
  let pos := q / 100 * ((n : ℚ) - 1)
  let i := (⌊pos⌋).toNat
  let lo := s.getD i 0
  let hi := s.getD (i + 1) lo
  lo + (pos - (⌊pos⌋ : ℚ)) * (hi - lo)

/-- The per-metric statistics record of _calculate_statistics. -/
structure Stat where
  mean : ℚ
  median : ℚ
  std : ℚ
  smin : ℚ
  smax : ℚ
  p5 : ℚ
  p10 : ℚ
  p25 : ℚ
  p75 : ℚ
  p90 : ℚ
  p95 : ℚ
deriving DecidableEq, Inhabited

/-- Statistics of one metric vector. On an empty vector the numpy reductions
of the source raise (np.min of a zero-size array), modelled as an error;
sqrtQ is the oracle for the real square root inside np.std. -/
def mkStat (sqrtQ : ℚ → ℚ) (values : List ℚ) : Except String Stat :=
  match values with
  | [] => Except.error "zero-size array to reduction operation minimum which has no identity"
  | _ :: _ =>
    Except.ok
      { mean := meanQ values
        median := percentileQ values 50
        std := sqrtQ (varQ values)
        smin := (minQ? values).getD 0
        smax := (maxQ? values).getD 0
        p5 := percentileQ values 5
        p10 := percentileQ values 10
        p25 := percentileQ values 25
        p75 := percentileQ values 75
        p90 := percentileQ values 90
        p95 := percentileQ values 95 }

/-- MonteCarloSimulator._calculate_statistics over the named metric vectors
(the 2-D annual_cash_flows matrix is already excluded by the caller). -/
def calculate_statistics (sqrtQ : ℚ → ℚ) :
    List (String × List ℚ) → Except String (List (String × Stat))
  | [] => Except.ok []
  | (name, values) :: rest => do
    let s ← mkStat sqrtQ values
    let r ← calculate_statistics sqrtQ rest
    Except.ok ((name, s) :: r)

/-- The risk metrics record of _calculate_risk_metrics. -/
structure RiskMetrics where
  probability_of_loss : ℚ
  probability_of_negative_cash_flow : ℚ
  value_at_risk_5 : ℚ
  value_at_risk_10 : ℚ
  expected_shortfall_5 : ℚ
  sharpe_ratio : ℚ
  coefficient_of_variation : ℚ
deriving DecidableEq, Inhabited

/-- MonteCarloSimulator._calculate_sharpe_ratio. -/
def calculate_sharpe_ratio (sqrtQ : ℚ → ℚ) (returns : List ℚ) (risk_free_rate : ℚ) : ℚ :=
  let excess_returns := returns.map (fun x => x - risk_free_rate)
  let sd := sqrtQ (varQ excess_returns)
  if sd ≠ 0 then meanQ excess_returns / sd else 0

/-- MonteCarloSimulator._calculate_risk_metrics. Only reached with at least
one trial (with zero trials _calculate_statistics raises first). -/
def calculate_risk_metrics (sqrtQ : ℚ → ℚ) (cumulative_cf total_returns : List ℚ) :
    RiskMetrics :=
  { probability_of_loss :=
      ((total_returns.countP (fun x => decide (x < 0)) : ℚ)) / (total_returns.length : ℚ)
    probability_of_negative_cash_flow :=
      ((cumulative_cf.countP (fun x => decide (x < 0)) : ℚ)) / (cumulative_cf.length : ℚ)
    value_at_risk_5 := percentileQ total_returns 5
    value_at_risk_10 := percentileQ total_returns 10
    expected_shortfall_5 :=
      meanQ (total_returns.filter (fun x => decide (x ≤ percentileQ total_returns 5)))
    sharpe_ratio := calculate_sharpe_ratio sqrtQ total_returns (3/100)
    coefficient_of_variation :=
      if meanQ total_returns ≠ 0 then sqrtQ (varQ total_returns) / meanQ total_returns else 0 }

/-- The executive summary record of _generate_summary. -/
structure Summary where
  risk_level : String
  recommendation : String
  expected_return : ℚ
  probability_of_loss : ℚ
  best_case_scenario : ℚ
  worst_case_scenario : ℚ
  confidence_interval_80 : List ℚ
deriving DecidableEq, Inhabited

/-- MonteCarloSimulator._generate_summary: the sequential threshold
classification of the source, verbatim. -/
def generate_summary (statistics : List (String × Stat)) (risk_metrics : RiskMetrics) :
    Summary :=
  let total_return_stats := alist_get? statistics "total_returns"
  let prob_loss := risk_metrics.probability_of_loss
  let risk_level :=
    if prob_loss < 1/10 then "Low"
    else if prob_loss < 25/100 then "Moderate"
    else if prob_loss < 4/10 then "High"
    else "Very High"
  let expected_return :=
    match total_return_stats with
    | some s => s.mean
    | none => 0
  let recommendation :=
    if expected_return > 50000 ∧ prob_loss < 2/10 then "Strong Buy"
    else if expected_return > 20000 ∧ prob_loss < 3/10 then "Buy"
    else if expected_return > 0 ∧ prob_loss < 4/10 then "Hold"
    else "Avoid"
  { risk_level := risk_level
    recommendation := recommendation
    expected_return := expected_return
    probability_of_loss := prob_loss
    best_case_scenario := (match total_return_stats with | some s => s.p95 | none => 0)
    worst_case_scenario := (match total_return_stats with | some s => s.p5 | none => 0)
    confidence_interval_80 :=
      [(match total_return_stats with | some s => s.p10 | none => 0),
       (match total_return_stats with | some s => s.p90 | none => 0)] }

/-- One TrialOutcome of _run_single_simulation. -/
structure TrialOutcome where
  annual_cash_flows : List ℚ
  cumulative_cash_flow : ℚ
  total_return : ℚ
  final_property_value : ℚ
  irr : ℚ
  worst_year_cash_flow : ℚ
  best_year_cash_flow : ℚ
deriving DecidableEq, Inhabited

/-- MonteCarloSimulator._calculate_irr. irrO is the oracle for npf.irr
(none models non-convergence, NaN or a complex root, each of which makes the
source raise inside its try block and fall through to the fallback); rpow is
the oracle for the real power x ** (1/years). In the fallback the source
computes (total_return/total_investment) ** (1/total_years); Python returns
a complex number when the base is negative and the exponent is fractional,
and storing that complex value into the float64 irr array of run_simulation
raises TypeError, which no handler catches. That abort path is modelled as
the error case here. -/
def calculate_irr (irrO : List ℚ → Option ℚ) (rpow : ℚ → ℕ → ℚ)
    (cash_flows : List ℚ) (initial_investment final_value : ℚ) : Except String ℚ :=
  let fallback : Except String ℚ :=
    let total_years := cash_flows.length
    let total_return := cash_flows.sum + final_value - initial_investment
    if 0 < total_years ∧ 0 < initial_investment then
      let base := total_return / initial_investment
      if base < 0 ∧ total_years ≠ 1 then
        Except.error "TypeError: cannot convert complex to float"
      else
        Except.ok ((rpow base total_years - 1) * 100)
    else
      Except.ok 0
  match cash_flows.getLast? with
  | none => fallback
  | some last =>
    let cf_series := (-initial_investment) :: (cash_flows.dropLast ++ [last + final_value])
    match irrO cf_series with
    | some irr_result => Except.ok (irr_result * 100)
    | none => fallback

/-- MonteCarloSimulator._run_single_simulation. -/
def run_single (prop : PropertyData) (cfg : SimConfig) (draw : ℕ → YearDraw)
    (irrO : List ℚ → Option ℚ) (rpow : ℚ → ℕ → ℚ) : Except String TrialOutcome :=
  match pget? prop "monthly_rent" with
  | none => Except.error "KeyError: monthly_rent"
  | some initial_rent =>
    let initial_expenses := calculate_total_monthly_expenses prop
    match pget? prop "purchase_price" with
    | none => Except.error "KeyError: purchase_price"
    | some initial_property_value =>
      match calculate_monthly_payment prop with
      | none => Except.error "ZeroDivisionError in calculate_monthly_payment"
      | some monthly_payment =>
        let sy := simYears draw cfg.major_repair_probability monthly_payment
          initial_expenses 0 cfg.years initial_rent initial_property_value
        let annual_cash_flows := sy.2.2
        let cumulative_cash_flow := annual_cash_flows.sum
        match pget? prop "down_payment" with
        | none => Except.error "KeyError: down_payment"
        | some initial_investment =>
          let total_investment := initial_investment + eget prop "closing_costs"
          let appreciation_gain := sy.2.1 - initial_property_value
          let total_return := cumulative_cash_flow + appreciation_gain - total_investment
          match calculate_irr irrO rpow annual_cash_flows total_investment appreciation_gain with
          | Except.error e => Except.error e
          | Except.ok irr =>
            match minQ? annual_cash_flows, maxQ? annual_cash_flows with
            | some worst, some best =>
              Except.ok
                { annual_cash_flows := annual_cash_flows
                  cumulative_cash_flow := cumulative_cash_flow
                  total_return := total_return
                  final_property_value := sy.2.1
                  irr := irr
                  worst_year_cash_flow := worst
                  best_year_cash_flow := best }
            | _, _ => Except.error "ValueError: min arg is an empty sequence"

/-- The trial loop of run_simulation: trials i, i+1, ... for k trials. -/
def runTrials (prop : PropertyData) (cfg : SimConfig) (draws : ℕ → ℕ → YearDraw)
    (irrO : List ℚ → Option ℚ) (rpow : ℚ → ℕ → ℚ) :
    ℕ → ℕ → Except String (List TrialOutcome)
  | _, 0 => Except.ok []
  | i, k + 1 => do
    let t ← run_single prop cfg (draws i) irrO rpow
    let rest ← runTrials prop cfg draws irrO rpow (i + 1) k
    Except.ok (t :: rest)

/-- The full simulation result record of run_simulation, with the raw
per-trial arrays, statistics, risk metrics and summary. -/
structure SimulationResult where
  simulation_parameters : SimConfig
  raw_annual_cash_flows : List (List ℚ)
  raw_cumulative_cash_flows : List ℚ
  raw_total_returns : List ℚ
  raw_final_property_values : List ℚ
  raw_irr_values : List ℚ
  raw_worst_year_cash_flows : List ℚ
  raw_best_year_cash_flows : List ℚ
  statistics : List (String × Stat)
  risk_metrics : RiskMetrics
  summary : Summary
deriving DecidableEq, Inhabited

/-- MonteCarloSimulator.run_simulation. -/
def run_simulation (prop : PropertyData) (cfg : SimConfig) (draws : ℕ → ℕ → YearDraw)
    (irrO : List ℚ → Option ℚ) (rpow : ℚ → ℕ → ℚ) (sqrtQ : ℚ → ℚ) :
    Except String SimulationResult := do
  let trials ← runTrials prop cfg draws irrO rpow 0 cfg.simulations
  let annual_cash_flows := trials.map (fun t => t.annual_cash_flows)
  let cumulative_cash_flows := trials.map (fun t => t.cumulative_cash_flow)
  let total_returns := trials.map (fun t => t.total_return)
  let final_property_values := trials.map (fun t => t.final_property_value)
  let irr_values := trials.map (fun t => t.irr)
  let worst_year_cash_flows := trials.map (fun t => t.worst_year_cash_flow)
  let best_year_cash_flows := trials.map (fun t => t.best_year_cash_flow)
  let statistics ← calculate_statistics sqrtQ
    [("cumulative_cash_flows", cumulative_cash_flows),
     ("total_returns", total_returns),
     ("final_property_values", final_property_values),
     ("irr_values", irr_values),
     ("worst_year_cash_flows", worst_year_cash_flows),
     ("best_year_cash_flows", best_year_cash_flows)]
  let risk_metrics := calculate_risk_metrics sqrtQ cumulative_cash_flows total_returns
  Except.ok
    { simulation_parameters := cfg
      raw_annual_cash_flows := annual_cash_flows
      raw_cumulative_cash_flows := cumulative_cash_flows
      raw_total_returns := total_returns
      raw_final_property_values := final_property_values
      raw_irr_values := irr_values
      raw_worst_year_cash_flows := worst_year_cash_flows
      raw_best_year_cash_flows := best_year_cash_flows
      statistics := statistics
      risk_metrics := risk_metrics
      summary := generate_summary statistics risk_metrics }

/-- The per-scenario record returned by scenario_analysis. -/
structure ScenarioOutcome where
  expected_return : ℚ
  probability_of_loss : ℚ
  value_at_risk_5 : ℚ
deriving DecidableEq

/-- MonteCarloSimulator.scenario_analysis. The SimConfig component of the
result is the final state of self.params: restored to the incoming params
when every scenario runs to completion, but left at the capped merged params
of the failing scenario when a run raises (the restore line is then never
reached). draws gives the random stream per scenario index. -/
def scenario_analysis (prop : PropertyData) (irrO : List ℚ → Option ℚ)
    (rpow : ℚ → ℕ → ℚ) (sqrtQ : ℚ → ℚ) (draws : ℕ → ℕ → ℕ → YearDraw) :
    ℕ → SimConfig → List (String × SimParamsIn) →
    SimConfig × Except String (List (String × ScenarioOutcome))
  | _, params, [] => (params, Except.ok [])
  | idx, params, (name, scenario_params) :: rest =>
    let original_params := params
    let updated := mergeParams params scenario_params
    let temp_params := { updated with simulations := min 1000 updated.simulations }
    match run_simulation prop temp_params (draws idx) irrO rpow sqrtQ with
    | Except.error e => (temp_params, Except.error e)
    | Except.ok results =>
      match alist_get? results.statistics "total_returns" with
      | none => (temp_params, Except.error "KeyError: total_returns")
      | some total_return_stats =>
        match scenario_analysis prop irrO rpow sqrtQ draws (idx + 1) original_params rest with
        | (pf, Except.ok l) =>
          (pf, Except.ok ((name,
            ⟨total_return_stats.mean,
             results.risk_metrics.probability_of_loss,
             results.risk_metrics.value_at_risk_5⟩) :: l))
        | (pf, Except.error e) => (pf, Except.error e)

/-- Modelled from the spec (for comparison with scenario_analysis): each
scenario is run independently from the caller params merged with the
scenario overrides, with the trial count capped at min(1000, merged count),
and no parameter state is threaded between scenarios. -/
def scenario_analysis_runs (prop : PropertyData) (irrO : List ℚ → Option ℚ)
    (rpow : ℚ → ℕ → ℚ) (sqrtQ : ℚ → ℚ) (draws : ℕ → ℕ → ℕ → YearDraw)
    (params : SimConfig) :
    ℕ → List (String × SimParamsIn) → Except String (List (String × ScenarioOutcome))
  | _, [] => Except.ok []
  | idx, (name, scenario_params) :: rest => do
    let updated := mergeParams params scenario_params
    let capped := { updated with simulations := min 1000 updated.simulations }
    let results ← run_simulation prop capped (draws idx) irrO rpow sqrtQ
    let total_return_stats ← toExcept (alist_get? results.statistics "total_returns")
    let l ← scenario_analysis_runs prop irrO rpow sqrtQ draws params (idx + 1) rest
    Except.ok ((name,
      ⟨total_return_stats.mean,
       results.risk_metrics.probability_of_loss,
       results.risk_metrics.value_at_risk_5⟩) :: l)

/-! ### Concrete inputs used by the witnesses and counterexamples -/

/-- A constructible property mapping (all six required fields present) in
which every field is 0, including loan_term_years. -/
def pCE : PropertyData :=
  ⟨[("purchase_price", 0), ("down_payment", 0), ("loan_amount", 0),
    ("interest_rate", 0), ("loan_term_years", 0), ("monthly_rent", 0)], []⟩

/-- A constructible property mapping with loan_term_years = 30 and every
ratio denominator equal to 0. -/
def pW1 : PropertyData :=
  ⟨[("purchase_price", 0), ("down_payment", 0), ("loan_amount", 0),
    ("interest_rate", 0), ("loan_term_years", 30), ("monthly_rent", 0)], []⟩

/-- A one-year 12 percent loan profile. -/
def pW5 : PropertyData :=
  ⟨[("purchase_price", 300000), ("down_payment", 60000), ("loan_amount", 240000),
    ("interest_rate", 12), ("loan_term_years", 1), ("monthly_rent", 2500)], []⟩

/-- The concrete scenario profile of the spec with a 6.5 percent rate. -/
def pSens : PropertyData :=
  ⟨[("purchase_price", 300000), ("down_payment", 60000), ("loan_amount", 240000),
    ("interest_rate", 13/2), ("loan_term_years", 30), ("monthly_rent", 2500)], []⟩

/-- A valid zero-rate profile on which every metric is defined. -/
def pGood : PropertyData :=
  ⟨[("purchase_price", 300000), ("down_payment", 60000), ("loan_amount", 240000),
    ("interest_rate", 0), ("loan_term_years", 30), ("monthly_rent", 2500)],
   [("property_tax", 300), ("insurance", 100)]⟩

/-- A deeply cash-flow-negative profile: rent far below the loan payment. -/
def prop7 : PropertyData :=
  ⟨[("purchase_price", 100000), ("down_payment", 20000), ("loan_amount", 80000),
    ("interest_rate", 0), ("loan_term_years", 30), ("monthly_rent", 100)], []⟩

/-- A degenerate draw: no growth, no vacancy, no appreciation, no repair. -/
def drawZero : YearDraw := ⟨0, 1, 0, 0, 1, 0⟩

/-- A mid-range draw. -/
def draw6 : YearDraw := ⟨3/100, 1, 1/10, 3/100, 1, 0⟩

/-- One trial over one year. -/
def cfg6 : SimConfig := { defaultConfig with simulations := 1, years := 1 }

/-- Zero trials. -/
def cfgZero : SimConfig := { defaultConfig with simulations := 0 }

/-- One trial over two years. -/
def cfg7 : SimConfig := { defaultConfig with simulations := 1, years := 2 }

/-- IRR oracle that always converges to 0.1. -/
def irrW : List ℚ → Option ℚ := fun _ => some (1/10)

/-- IRR oracle that never converges (npf.irr returns NaN). -/
def irrNone : List ℚ → Option ℚ := fun _ => none

/-- Real-power oracle (value irrelevant to the claims). -/
def rpowW : ℚ → ℕ → ℚ := fun b _ => b

/-- Square-root oracle (value irrelevant to the claims). -/
def sqrtW : ℚ → ℚ := fun q => q

/-- Caller params with a reversed (min > max) rent growth range. -/
def pRev : SimParamsIn := { noParams with rent_growth_range := some [5/100, 2/100] }

/-- Caller params requesting zero trials. -/
def spZero : SimParamsIn := { noParams with simulations := some 0 }

/-- Statistics record with mean 60000 for the summary witness. -/
def tW8 : Stat := ⟨60000, 0, 0, 0, 0, 0, 0, 0, 0, 0, 0⟩

/-- Statistics mapping for the summary witness. -/
def statsW8 : List (String × Stat) := [("total_returns", tW8)]

/-- Risk metrics with probability of loss 0.05 for the summary witness. -/
def riskW8 : RiskMetrics := ⟨1/20, 0, 0, 0, 0, 0, 0⟩

/-- The successful sensitivity-analysis output on pGood. -/
def sensGoodOut : List (String × ScenarioMetrics) :=
  okD (sensitivity_analysis pGood "monthly_rent" (1/5)).2 []

/-- The successful one-trial simulation result on pGood. -/
def res6 : SimulationResult :=
  okD (run_simulation pGood cfg6 (fun _ _ => draw6) irrW rpowW sqrtW) default

/-- A single all-defaults scenario. -/
def scenarios10 : List (String × SimParamsIn) := [("base", noParams)]

/-- The successful scenario-analysis output on pGood. -/
def out10 : List (String × ScenarioOutcome) :=
  okD (scenario_analysis pGood irrW rpowW sqrtW (fun _ _ _ => draw6) 0 cfg6 scenarios10).2 []

/-! ### Helper lemmas -/

theorem exbind_ok {α β : Type} {x : Except String α} {f : α → Except String β} {b : β}
    (h : (x >>= f) = Except.ok b) : ∃ a, x = Except.ok a ∧ f a = Except.ok b := by
  cases x with
  | ok a => exact ⟨a, rfl, h⟩
  | error e => simp [Bind.bind, Except.bind] at h

theorem round2_close (x : ℚ) : |round2 x - x| ≤ 1/200 := by
  have h := abs_sub_round (x * 100)
  rw [round2]
  have hrw : (round (x * 100) : ℚ) / 100 - x = ((round (x * 100) : ℚ) - x * 100) / 100 := by
    ring
  rw [hrw, abs_div, abs_sub_comm]
  rw [show |(100 : ℚ)| = 100 by norm_num]
  linarith

/-! ### C9: input validation checks presence only -/

/-- Claim C9: constructing the Metrics Engine validates only the presence of
the six required field names; construction succeeds exactly when every
required key is present (whatever the values), and a failure names the first
missing field. -/
theorem claim_C9 (p : PropertyData) :
    ((validate_inputs p = Except.ok ()) ↔
      ∀ f ∈ required_fields, (pget? p f).isSome = true) ∧
    (∀ e, validate_inputs p = Except.error e →
      ∃ f, f ∈ required_fields ∧ pget? p f = none ∧ e = "Missing required field: " ++ f) := by
  unfold validate_inputs
  cases hf : required_fields.find? (fun f => (pget? p f).isNone) with
  | none =>
    constructor
    · simp only [true_iff, iff_true]
      intro f hfm
      have hnone := List.find?_eq_none.mp hf f hfm
      cases hval : pget? p f with
      | none => simp [hval] at hnone
      | some v => simp
    · intro e he
      simp at he
  | some f =>
    have hmem : f ∈ required_fields := List.mem_of_find?_eq_some hf
    have hnone : (pget? p f).isNone = true := by
      have := List.find?_some hf
      simpa using this
    constructor
    · constructor
      · intro h
        simp at h
      · intro hall
        have := hall f hmem
        rw [Option.isNone_iff_eq_none] at hnone
        simp [hnone] at this
    · intro e he
      refine ⟨f, hmem, Option.isNone_iff_eq_none.mp hnone, ?_⟩
      have : Except.error ("Missing required field: " ++ f) = (Except.error e : Except String Unit) := he
      cases this
      rfl

/-- Witness for C9 on the empty property mapping: validation fails naming
purchase_price, the first required field. -/
theorem claim_C9_witness :
    ∃ f, f ∈ required_fields ∧ pget? (⟨[], []⟩ : PropertyData) f = none ∧
      "Missing required field: purchase_price" = "Missing required field: " ++ f :=
  (claim_C9 ⟨[], []⟩).2 "Missing required field: purchase_price" rfl

/-! ### C1: guarded ratio operations -/

/-- Claim C1 (amended): on a constructible profile, cap rate and gross rent
multiplier return exactly 0 when their denominator is 0; DSCR, cash-on-cash
return and break-even ratio return exactly 0 when their denominator is 0
provided the monthly-payment subcomputation is defined (it divides by zero
when, e.g., loan_term_years is 0, and then these three operations raise even
when their own denominator is 0). -/
theorem claim_C1 (p : PropertyData) (purchase_price monthly_rent down_payment : ℚ)
    (hpp : pget? p "purchase_price" = some purchase_price)
    (hrent : pget? p "monthly_rent" = some monthly_rent)
    (hdp : pget? p "down_payment" = some down_payment) :
    (purchase_price = 0 → calculate_cap_rate p = some 0) ∧
    (monthly_rent = 0 → calculate_gross_rent_multiplier p = some 0) ∧
    (∀ m, calculate_monthly_payment p = some m →
      ((m * 12 = 0 → calculate_dscr p = some 0) ∧
       (down_payment + eget p "closing_costs" = 0 →
         calculate_cash_on_cash_return p = some 0) ∧
       (monthly_rent = 0 → calculate_break_even_ratio p = some 0))) := by
  refine ⟨?_, ?_, ?_⟩
  · intro h0
    simp [calculate_cap_rate, calculate_noi, hrent, hpp, h0]
  · intro h0
    simp [calculate_gross_rent_multiplier, hpp, hrent, h0]
  · intro m hm
    refine ⟨?_, ?_, ?_⟩
    · intro h0
      simp [calculate_dscr, calculate_noi, hrent, hm, h0, round3]
    · intro h0
      simp [calculate_cash_on_cash_return, calculate_annual_cash_flow,
            calculate_monthly_cash_flow, hrent, hm, hdp, h0]
    · intro h0
      simp [calculate_break_even_ratio, hm, hrent, h0]

/-- Counterexample for C1 as stated: on the constructible profile pCE the
denominator of the break-even ratio (monthly_rent) is 0, yet the operation
raises (models ZeroDivisionError in calculate_monthly_payment, reached
before the rent guard) instead of returning 0; cash-on-cash return likewise. -/
theorem claim_C1_cex :
    pget? pCE "monthly_rent" = some 0 ∧
    pget? pCE "down_payment" = some 0 ∧
    calculate_break_even_ratio pCE = none ∧
    calculate_cash_on_cash_return pCE = none := by
  refine ⟨rfl, rfl, ?_, ?_⟩ <;> with_unfolding_all rfl

/-- Witness for C1: on pW1 every denominator is 0, the payment computation
is defined, and all five guarded operations return exactly 0. -/
theorem claim_C1_witness :
    calculate_cap_rate pW1 = some 0 ∧
    calculate_gross_rent_multiplier pW1 = some 0 ∧
    calculate_dscr pW1 = some 0 ∧
    calculate_cash_on_cash_return pW1 = some 0 ∧
    calculate_break_even_ratio pW1 = some 0 := by
  have h := claim_C1 pW1 0 0 0 rfl rfl rfl
  have hm := h.2.2 0 (by with_unfolding_all rfl)
  exact ⟨h.1 rfl, h.2.1 rfl, hm.1 (by norm_num),
    hm.2.1 (by with_unfolding_all rfl), hm.2.2 rfl⟩

/-! ### C2: sensitivity analysis restores the profile -/

theorem sensLoop_restore (varname : String) (v : ℚ) (mults : List ℚ) :
    ∀ p pf out, sensLoop p varname v mults = (pf, Except.ok out) → pf = p := by
  induction mults with
  | nil =>
    intro p pf out h
    simp only [sensLoop, Prod.mk.injEq] at h
    exact h.1.symm
  | cons m rest ih =>
    intro p pf out h
    unfold sensLoop at h
    split at h
    · split at h
      · rename_i pf2 l2 hrec
        simp only [Prod.mk.injEq] at h
        exact h.1.symm ▸ ih p pf2 l2 hrec
      · simp only [Prod.mk.injEq] at h
        exact absurd h.2 (by simp)
    · simp only [Prod.mk.injEq] at h
      exact absurd h.2 (by simp)

/-- Claim C2 (amended): whenever sensitivity_analysis returns its scenario
results (rather than raising), the profile state observed after the call
equals the state before the call. When a scenario metric computation raises
mid-loop the mutated profile is left in place, so the unconditional claim
fails; see the counterexample. -/
theorem claim_C2 (p : PropertyData) (varname : String) (range_percent : ℚ)
    (pf : PropertyData) (out : List (String × ScenarioMetrics))
    (h : sensitivity_analysis p varname range_percent = (pf, Except.ok out)) :
    pf = p := by
  unfold sensitivity_analysis at h
  split at h
  · have := congrArg Prod.snd h
    simp at this
  · split at h
    · have := congrArg Prod.snd h
      simp at this
    · exact sensLoop_restore _ _ _ p pf out h

set_option maxRecDepth 8000 in
/-- Counterexample for C2 as stated: on the valid profile pSens the field
loan_term_years is present and non-falsy, yet sensitivity_analysis with
range fraction 1 scales the term to 0 in its first scenario, the monthly
payment computation raises, and the call leaves the profile permanently
mutated (loan_term_years = 0 instead of 30). -/
theorem claim_C2_cex :
    pget? pSens "loan_term_years" = some 30 ∧ (30 : ℚ) ≠ 0 ∧
    pget? (sensitivity_analysis pSens "loan_term_years" 1).1 "loan_term_years" = some 0 ∧
    (sensitivity_analysis pSens "loan_term_years" 1).1 ≠ pSens := by
  have h0 : pget? (sensitivity_analysis pSens "loan_term_years" 1).1 "loan_term_years"
      = some 0 := by with_unfolding_all rfl
  refine ⟨rfl, by norm_num, h0, ?_⟩
  intro heq
  rw [heq] at h0
  have h30 : pget? pSens "loan_term_years" = some 30 := rfl
  exact absurd (Option.some.inj (h30.symm.trans h0)) (by norm_num)

set_option maxRecDepth 8000 in
/-- Witness for C2: a successful call on pGood leaves the profile equal to
its original state. -/
theorem claim_C2_witness :
    (sensitivity_analysis pGood "monthly_rent" (1/5)).1 = pGood :=
  claim_C2 pGood "monthly_rent" (1/5)
    (sensitivity_analysis pGood "monthly_rent" (1/5)).1 sensGoodOut
    (by with_unfolding_all rfl)

/-! ### C5: monthly payment formula -/

/-- Claim C5: for a profile with loan principal P > 0 and an integer term
n > 0, the zero-rate payment is exactly P/(12n), and for a positive rate the
payment is the standard amortizing payment rounded to 2 decimals, so the
amortization identity holds within rounding tolerance (the rounding error of
at most 1/200 scaled by the denominator of the formula). -/
theorem claim_C5 (p : PropertyData) (P rPct : ℚ) (n : ℕ)
    (hP : pget? p "loan_amount" = some P)
    (hr : pget? p "interest_rate" = some rPct)
    (ht : pget? p "loan_term_years" = some (n : ℚ))
    (_hP0 : 0 < P) (hn0 : 0 < n) :
    (rPct = 0 → calculate_monthly_payment p = some (P / (12 * (n : ℚ)))) ∧
    (0 < rPct →
      ∃ m, calculate_monthly_payment p = some m ∧
        m = round2 (P * ((rPct/100/12) * (1 + rPct/100/12) ^ (12 * n)) /
              ((1 + rPct/100/12) ^ (12 * n) - 1)) ∧
        |m * ((1 + rPct/100/12) ^ (12 * n) - 1) -
            P * (rPct/100/12) * (1 + rPct/100/12) ^ (12 * n)|
          ≤ ((1 + rPct/100/12) ^ (12 * n) - 1) / 200) := by
  have hcast : ((n : ℚ) * 12) = ((12 * n : ℕ) : ℚ) := by push_cast; ring
  have hden : ((n : ℚ) * 12).den = 1 := by rw [hcast]; exact Rat.den_natCast _
  have hnum : (0 : ℤ) ≤ ((n : ℚ) * 12).num := by
    rw [hcast, Rat.num_natCast]; exact Int.natCast_nonneg _
  have htn : ((n : ℚ) * 12).num.toNat = 12 * n := by
    rw [hcast, Rat.num_natCast]; exact Int.toNat_natCast _
  have hne : ((n : ℚ) * 12) ≠ 0 := by positivity
  constructor
  · intro h0
    simp only [calculate_monthly_payment, hP, hr, ht, Option.bind_eq_bind,
      Option.some_bind, h0]
    rw [if_pos ⟨hden, hnum⟩]
    norm_num [hne]
    rw [mul_comm]
  · intro hrpos
    have hmr : (0 : ℚ) < rPct / 100 / 12 := by positivity
    have hmrne : rPct / 100 / 12 ≠ 0 := ne_of_gt hmr
    have hpow : 1 < (1 + rPct / 100 / 12) ^ (12 * n) := by
      refine one_lt_pow₀ (by linarith) ?_
      omega
    have hdpos : (0 : ℚ) < (1 + rPct / 100 / 12) ^ (12 * n) - 1 := by linarith
    have hdne : (1 + rPct / 100 / 12) ^ (12 * n) - 1 ≠ 0 := ne_of_gt hdpos
    simp only [calculate_monthly_payment, hP, hr, ht, Option.bind_eq_bind,
      Option.some_bind]
    rw [if_pos ⟨hden, hnum⟩, if_neg hmrne, htn, if_neg hdne]
    refine ⟨_, rfl, rfl, ?_⟩
    have hclose := round2_close
      (P * ((rPct/100/12) * (1 + rPct/100/12) ^ (12 * n)) /
        ((1 + rPct/100/12) ^ (12 * n) - 1))
    set x := P * ((rPct/100/12) * (1 + rPct/100/12) ^ (12 * n)) /
        ((1 + rPct/100/12) ^ (12 * n) - 1) with hx
    set D := (1 + rPct/100/12) ^ (12 * n) - 1 with hD
    have hxD : x * D = P * (rPct/100/12) * (1 + rPct/100/12) ^ (12 * n) := by
      rw [hx]
      field_simp
      ring
    calc |round2 x * D - P * (rPct/100/12) * (1 + rPct/100/12) ^ (12 * n)|
        = |round2 x * D - x * D| := by rw [hxD]
      _ = |round2 x - x| * |D| := by rw [← sub_mul, abs_mul]
      _ ≤ (1/200) * |D| := by
          exact mul_le_mul_of_nonneg_right hclose (abs_nonneg D)
      _ = D / 200 := by rw [abs_of_pos hdpos]; ring

/-- Witness for C5 at a one-year 12 percent, 240000 principal loan. -/
theorem claim_C5_witness :
    ((12 : ℚ) = 0 → calculate_monthly_payment pW5 = some (240000 / (12 * ((1 : ℕ) : ℚ)))) ∧
    (0 < (12 : ℚ) →
      ∃ m, calculate_monthly_payment pW5 = some m ∧
        m = round2 (240000 * (((12:ℚ)/100/12) * (1 + (12:ℚ)/100/12) ^ (12 * 1)) /
              ((1 + (12:ℚ)/100/12) ^ (12 * 1) - 1)) ∧
        |m * ((1 + (12:ℚ)/100/12) ^ (12 * 1) - 1) -
            240000 * ((12:ℚ)/100/12) * (1 + (12:ℚ)/100/12) ^ (12 * 1)|
          ≤ ((1 + (12:ℚ)/100/12) ^ (12 * 1) - 1) / 200) :=
  claim_C5 pW5 240000 12 1 rfl rfl (by with_unfolding_all rfl)
    (by norm_num) (by norm_num)

/-! ### C3: configuration validation -/

/-- Claim C3 (amended): constructing the simulator succeeds exactly when
each of the three named range pairs of the merged configuration has length
2. The ordering min ≤ max is NOT validated (see the counterexample), so a
reversed pair is accepted at configuration time. -/
theorem claim_C3 (p : SimParamsIn) :
    exceptIsOk (validate_params p) = true ↔
      ((mergeParams defaultConfig p).rent_growth_range.length = 2 ∧
       (mergeParams defaultConfig p).vacancy_rate_range.length = 2 ∧
       (mergeParams defaultConfig p).appreciation_range.length = 2) := by
  simp only [validate_params]
  split_ifs with h1 h2 h3
  · simp [exceptIsOk, h1]
  · simp [exceptIsOk, h1, h2]
  · simp [exceptIsOk, h1, h2, h3]
  · simp only [exceptIsOk, true_iff]
    exact ⟨not_ne_iff.mp h1, not_ne_iff.mp h2, not_ne_iff.mp h3⟩

/-- Counterexample for C3 as stated: a rent growth range with min 0.05 >
max 0.02 passes _validate_params (it only checks the length), so the
simulator is configured and no ValidationError is raised. -/
theorem claim_C3_cex :
    (mergeParams defaultConfig pRev).rent_growth_range = [5/100, 2/100] ∧
    validate_params pRev = Except.ok (mergeParams defaultConfig pRev) :=
  ⟨rfl, rfl⟩

/-! ### C4: zero trials or zero years -/

theorem simYears_len (draw : ℕ → YearDraw) (repair_prob payment initial_expenses : ℚ) :
    ∀ (k y : ℕ) (rent value : ℚ),
      (simYears draw repair_prob payment initial_expenses y k rent value).2.2.length = k := by
  intro k
  induction k with
  | zero => intro y rent value; simp [simYears]
  | succ k ih => intro y rent value; simp [simYears, ih]

theorem run_single_ok (prop : PropertyData) (cfg : SimConfig) (draw : ℕ → YearDraw)
    (irrO : List ℚ → Option ℚ) (rpow : ℚ → ℕ → ℚ) (t : TrialOutcome)
    (h : run_single prop cfg draw irrO rpow = Except.ok t) :
    t.annual_cash_flows.length = cfg.years ∧ t.annual_cash_flows ≠ [] := by
  unfold run_single at h
  split at h
  · exact absurd h (by simp)
  · split at h
    · exact absurd h (by simp)
    · split at h
      · exact absurd h (by simp)
      · split at h
        · exact absurd h (by simp)
        · simp only [] at h
          split at h
          · exact absurd h (by simp)
          · split at h
            · rename_i worst best hmin hmax
              have ht := Except.ok.inj h
              subst ht
              refine ⟨?_, ?_⟩
              · show (simYears draw cfg.major_repair_probability _ _ 0 cfg.years _ _).2.2.length
                    = cfg.years
                exact simYears_len _ _ _ _ _ _ _ _
              · show (simYears draw cfg.major_repair_probability _ _ 0 cfg.years _ _).2.2 ≠ []
                intro hnil
                rw [hnil] at hmin
                simp [minQ?] at hmin
            · exact absurd h (by simp)

theorem runTrials_ok (prop : PropertyData) (cfg : SimConfig) (draws : ℕ → ℕ → YearDraw)
    (irrO : List ℚ → Option ℚ) (rpow : ℚ → ℕ → ℚ) :
    ∀ (k i : ℕ) (l : List TrialOutcome),
      runTrials prop cfg draws irrO rpow i k = Except.ok l →
      l.length = k ∧ ∀ t ∈ l, ∃ j, run_single prop cfg (draws j) irrO rpow = Except.ok t := by
  intro k
  induction k with
  | zero =>
    intro i l h
    simp only [runTrials] at h
    have := Except.ok.inj h
    subst this
    simp
  | succ k ih =>
    intro i l h
    simp only [runTrials] at h
    obtain ⟨t, ht, h⟩ := exbind_ok h
    obtain ⟨rest, hrest, h⟩ := exbind_ok h
    have := Except.ok.inj h
    subst this
    obtain ⟨hlen, hmem⟩ := ih (i + 1) rest hrest
    refine ⟨by simp [hlen], ?_⟩
    intro u hu
    rcases List.mem_cons.mp hu with hu | hu
    · exact ⟨i, hu ▸ ht⟩
    · exact hmem u hu

/-- Claim C4 (amended): with simulations = 0 or years = 0 run_simulation
never returns a result: with zero trials the statistics reduction raises on
an empty vector, and with zero years every trial raises taking min of the
empty annual cash flow list. The error is NOT a configuration-time
ValidationError: _validate_params accepts both values (see the
counterexample). -/
theorem claim_C4 (prop : PropertyData) (cfg : SimConfig) (draws : ℕ → ℕ → YearDraw)
    (irrO : List ℚ → Option ℚ) (rpow : ℚ → ℕ → ℚ) (sqrtQ : ℚ → ℚ)
    (h : cfg.simulations = 0 ∨ cfg.years = 0) :
    exceptIsOk (run_simulation prop cfg draws irrO rpow sqrtQ) = false := by
  rcases h with hS | hY
  · unfold run_simulation
    rw [hS]
    simp [runTrials, calculate_statistics, mkStat, exceptIsOk, Bind.bind, Except.bind]
  · cases hk : cfg.simulations with
    | zero =>
      unfold run_simulation
      rw [hk]
      simp [runTrials, calculate_statistics, mkStat, exceptIsOk, Bind.bind, Except.bind]
    | succ k =>
      unfold run_simulation
      rw [hk]
      cases hrs : run_single prop cfg (draws 0) irrO rpow with
      | error e =>
        simp [runTrials, hrs, exceptIsOk, Bind.bind, Except.bind]
      | ok t =>
        obtain ⟨hlen, hne⟩ := run_single_ok prop cfg (draws 0) irrO rpow t hrs
        rw [hY] at hlen
        exact absurd (List.length_eq_zero.mp hlen) hne

/-- Counterexample for C4 as stated: simulations = 0 passes _validate_params
with no ValidationError; configuration succeeds and the merged config keeps
simulations = 0 (and likewise nothing rejects years = 0). -/
theorem claim_C4_cex :
    validate_params spZero = Except.ok (mergeParams defaultConfig spZero) ∧
    (mergeParams defaultConfig spZero).simulations = 0 ∧
    exceptIsOk (validate_params { noParams with years := some 0 }) = true :=
  ⟨rfl, rfl, rfl⟩

/-- Witness for C4: the zero-trial simulation on the concrete config cfgZero
fails rather than returning a result. -/
theorem claim_C4_witness :
    exceptIsOk (run_simulation pGood cfgZero (fun _ _ => drawZero) irrW rpowW sqrtW) = false :=
  claim_C4 pGood cfgZero (fun _ _ => drawZero) irrW rpowW sqrtW (Or.inl rfl)

/-! ### C6: result shape invariants -/

/-- Claim C6: for simulations = S ≥ 1 and years = Y ≥ 1, a returned result
has per-trial annual cash flow sequences of length exactly Y, raw per-metric
arrays of length exactly S, and probability_of_loss in [0, 1]. -/
theorem claim_C6 (prop : PropertyData) (cfg : SimConfig) (draws : ℕ → ℕ → YearDraw)
    (irrO : List ℚ → Option ℚ) (rpow : ℚ → ℕ → ℚ) (sqrtQ : ℚ → ℚ)
    (res : SimulationResult)
    (hS : 1 ≤ cfg.simulations) (_hY : 1 ≤ cfg.years)
    (h : run_simulation prop cfg draws irrO rpow sqrtQ = Except.ok res) :
    res.raw_annual_cash_flows.map List.length = List.replicate cfg.simulations cfg.years ∧
    res.raw_annual_cash_flows.length = cfg.simulations ∧
    res.raw_cumulative_cash_flows.length = cfg.simulations ∧
    res.raw_total_returns.length = cfg.simulations ∧
    res.raw_final_property_values.length = cfg.simulations ∧
    res.raw_irr_values.length = cfg.simulations ∧
    res.raw_worst_year_cash_flows.length = cfg.simulations ∧
    res.raw_best_year_cash_flows.length = cfg.simulations ∧
    0 ≤ res.risk_metrics.probability_of_loss ∧
    res.risk_metrics.probability_of_loss ≤ 1 := by
  unfold run_simulation at h
  obtain ⟨trials, htr, h⟩ := exbind_ok h
  simp only [] at h
  obtain ⟨stats, hst, h⟩ := exbind_ok h
  have hres := Except.ok.inj h
  subst hres
  obtain ⟨hlen, hmem⟩ := runTrials_ok prop cfg draws irrO rpow cfg.simulations 0 trials htr
  have hrows : ∀ t ∈ trials, t.annual_cash_flows.length = cfg.years := by
    intro t ht
    obtain ⟨j, hj⟩ := hmem t ht
    exact (run_single_ok prop cfg (draws j) irrO rpow t hj).1
  have hSpos : (0 : ℚ) < ((trials.map (fun t => t.total_return)).length : ℚ) := by
    simp only [List.length_map, hlen]
    exact_mod_cast lt_of_lt_of_le Nat.zero_lt_one hS
  refine ⟨?_, ?_, ?_, ?_, ?_, ?_, ?_, ?_, ?_, ?_⟩
  · dsimp only
    rw [List.map_map]
    refine List.eq_replicate_iff.mpr ⟨by simp [hlen], ?_⟩
    intro b hb
    obtain ⟨t, ht, rfl⟩ := List.mem_map.mp hb
    exact hrows t ht
  · simp [hlen]
  · simp [hlen]
  · simp [hlen]
  · simp [hlen]
  · simp [hlen]
  · simp [hlen]
  · simp [hlen]
  · dsimp only [calculate_risk_metrics]
    positivity
  · dsimp only [calculate_risk_metrics]
    rw [div_le_one hSpos]
    exact_mod_cast List.countP_le_length _

set_option maxRecDepth 8000 in
/-- Witness for C6: the one-trial one-year run on pGood. -/
theorem claim_C6_witness :
    res6.raw_annual_cash_flows.map List.length = List.replicate cfg6.simulations cfg6.years ∧
    res6.raw_annual_cash_flows.length = cfg6.simulations ∧
    res6.raw_cumulative_cash_flows.length = cfg6.simulations ∧
    res6.raw_total_returns.length = cfg6.simulations ∧
    res6.raw_final_property_values.length = cfg6.simulations ∧
    res6.raw_irr_values.length = cfg6.simulations ∧
    res6.raw_worst_year_cash_flows.length = cfg6.simulations ∧
    res6.raw_best_year_cash_flows.length = cfg6.simulations ∧
    0 ≤ res6.risk_metrics.probability_of_loss ∧
    res6.risk_metrics.probability_of_loss ≤ 1 :=
  claim_C6 pGood cfg6 (fun _ _ => draw6) irrW rpowW sqrtW res6
    (by norm_num [cfg6]) (by norm_num [cfg6]) (by with_unfolding_all rfl)

/-! ### C7: IRR fallback abort -/

set_option maxRecDepth 8000 in
/-- Claim C7 evaluation at the failing input: prop7 loses money every year,
the IRR oracle reports non-convergence (npf.irr NaN), total_return is
negative and years = 2, so the fallback computes a complex power and the
whole run aborts with a TypeError instead of recovering locally. -/
theorem claim_C7 :
    run_simulation prop7 cfg7 (fun _ _ => drawZero) irrNone rpowW sqrtW
      = Except.error "TypeError: cannot convert complex to float" := by
  with_unfolding_all rfl

/-! ### C8: summary classification thresholds -/

/-- Claim C8: the summary classification is deterministic and evaluated in
priority order on probability_of_loss p and the mean m of total_returns:
risk_level is Low for p < 0.10, Moderate for p < 0.25, High for p < 0.40,
else Very High; recommendation is Strong Buy for m > 50000 and p < 0.20,
else Buy for m > 20000 and p < 0.30, else Hold for m > 0 and p < 0.40,
else Avoid. -/
theorem claim_C8 (stats : List (String × Stat)) (risk : RiskMetrics) (t : Stat)
    (hT : alist_get? stats "total_returns" = some t) :
    ((risk.probability_of_loss < 1/10 →
        (generate_summary stats risk).risk_level = "Low") ∧
     (¬risk.probability_of_loss < 1/10 → risk.probability_of_loss < 25/100 →
        (generate_summary stats risk).risk_level = "Moderate") ∧
     (¬risk.probability_of_loss < 25/100 → risk.probability_of_loss < 4/10 →
        (generate_summary stats risk).risk_level = "High") ∧
     (¬risk.probability_of_loss < 4/10 →
        (generate_summary stats risk).risk_level = "Very High")) ∧
    ((t.mean > 50000 ∧ risk.probability_of_loss < 2/10 →
        (generate_summary stats risk).recommendation = "Strong Buy") ∧
     (¬(t.mean > 50000 ∧ risk.probability_of_loss < 2/10) →
      t.mean > 20000 ∧ risk.probability_of_loss < 3/10 →
        (generate_summary stats risk).recommendation = "Buy") ∧
     (¬(t.mean > 50000 ∧ risk.probability_of_loss < 2/10) →
      ¬(t.mean > 20000 ∧ risk.probability_of_loss < 3/10) →
      t.mean > 0 ∧ risk.probability_of_loss < 4/10 →
        (generate_summary stats risk).recommendation = "Hold") ∧
     (¬(t.mean > 50000 ∧ risk.probability_of_loss < 2/10) →
      ¬(t.mean > 20000 ∧ risk.probability_of_loss < 3/10) →
      ¬(t.mean > 0 ∧ risk.probability_of_loss < 4/10) →
        (generate_summary stats risk).recommendation = "Avoid")) := by
  refine ⟨⟨?_, ?_, ?_, ?_⟩, ⟨?_, ?_, ?_, ?_⟩⟩
  · intro h1
    simp only [generate_summary, hT]
    rw [if_pos h1]
  · intro h1 h2
    simp only [generate_summary, hT]
    rw [if_neg h1, if_pos h2]
  · intro h2 h3
    simp only [generate_summary, hT]
    rw [if_neg (fun hlt => h2 (lt_trans hlt (by norm_num))), if_neg h2, if_pos h3]
  · intro h3
    simp only [generate_summary, hT]
    rw [if_neg (fun hlt => h3 (lt_trans hlt (by norm_num))),
        if_neg (fun hlt => h3 (lt_trans hlt (by norm_num))), if_neg h3]
  · intro h1
    simp only [generate_summary, hT]
    rw [if_pos h1]
  · intro h1 h2
    simp only [generate_summary, hT]
    rw [if_neg h1, if_pos h2]
  · intro h1 h2 h3
    simp only [generate_summary, hT]
    rw [if_neg h1, if_neg h2, if_pos h3]
  · intro h1 h2 h3
    simp only [generate_summary, hT]
    rw [if_neg h1, if_neg h2, if_neg h3]

/-- Witness for C8: mean 60000 with probability of loss 0.05 classifies as
Low risk and Strong Buy. -/
theorem claim_C8_witness :
    (generate_summary statsW8 riskW8).risk_level = "Low" ∧
    (generate_summary statsW8 riskW8).recommendation = "Strong Buy" :=
  ⟨(claim_C8 statsW8 riskW8 tW8 rfl).1.1 (by norm_num [riskW8]),
   (claim_C8 statsW8 riskW8 tW8 rfl).2.1 (by norm_num [riskW8, tW8])⟩

/-! ### C10: scenario analysis -/

/-- Claim C10 (amended): whenever scenario_analysis returns (no scenario run
raises), the stored params after the call equal the params before the call,
and the reported results are exactly those of running each scenario on the
original params merged with its overrides, with the trial count capped at
min(1000, merged count) — as expressed by scenario_analysis_runs. When a
scenario run raises, the params are left mutated (see the counterexample). -/
theorem claim_C10 (prop : PropertyData) (irrO : List ℚ → Option ℚ)
    (rpow : ℚ → ℕ → ℚ) (sqrtQ : ℚ → ℚ) (draws : ℕ → ℕ → ℕ → YearDraw) :
    ∀ (scenarios : List (String × SimParamsIn)) (idx : ℕ) (params pfin : SimConfig)
      (out : List (String × ScenarioOutcome)),
      scenario_analysis prop irrO rpow sqrtQ draws idx params scenarios
        = (pfin, Except.ok out) →
      pfin = params ∧
      scenario_analysis_runs prop irrO rpow sqrtQ draws params idx scenarios
        = Except.ok out := by
  intro scenarios
  induction scenarios with
  | nil =>
    intro idx params pfin out h
    simp only [scenario_analysis, Prod.mk.injEq] at h
    obtain ⟨h1, h2⟩ := h
    have h3 := Except.ok.inj h2
    subst h3
    exact ⟨h1.symm, by simp [scenario_analysis_runs]⟩
  | cons hd rest ih =>
    obtain ⟨name, sp⟩ := hd
    intro idx params pfin out h
    unfold scenario_analysis at h
    simp only [] at h
    split at h
    · exact absurd (congrArg Prod.snd h) (by simp)
    · rename_i results hrun
      split at h
      · exact absurd (congrArg Prod.snd h) (by simp)
      · rename_i trs halist
        split at h
        · rename_i pf l hrec
          simp only [Prod.mk.injEq] at h
          obtain ⟨h1, h2⟩ := h
          have h3 := Except.ok.inj h2
          subst h3
          obtain ⟨hpf, hruns⟩ := ih (idx + 1) params pf l hrec
          subst hpf
          refine ⟨h1.symm, ?_⟩
          simp only [scenario_analysis_runs, hrun, halist, toExcept, hruns,
            Bind.bind, Except.bind]
        · exact absurd (congrArg Prod.snd h) (by simp)

set_option maxRecDepth 8000 in
/-- Counterexample for C10 as stated: a scenario overriding simulations to 0
makes its run raise inside statistics, and scenario_analysis then leaves the
stored params at the capped scenario params (simulations = 0) instead of
restoring the original configuration (simulations = 10000). -/
theorem claim_C10_cex :
    (scenario_analysis pGood irrW rpowW sqrtW (fun _ _ _ => drawZero) 0 defaultConfig
        [("zero", spZero)]).1.simulations = 0 ∧
    (scenario_analysis pGood irrW rpowW sqrtW (fun _ _ _ => drawZero) 0 defaultConfig
        [("zero", spZero)]).1 ≠ defaultConfig := by
  have h0 : (scenario_analysis pGood irrW rpowW sqrtW (fun _ _ _ => drawZero) 0 defaultConfig
      [("zero", spZero)]).1.simulations = 0 := by with_unfolding_all rfl
  refine ⟨h0, ?_⟩
  intro heq
  rw [heq] at h0
  exact absurd h0 (by norm_num [defaultConfig])

set_option maxRecDepth 8000 in
/-- Witness for C10: a successful scenario analysis restores the params and
reports the capped independent runs. -/
theorem claim_C10_witness :
    (scenario_analysis pGood irrW rpowW sqrtW (fun _ _ _ => draw6) 0 cfg6 scenarios10).1
      = cfg6 ∧
    scenario_analysis_runs pGood irrW rpowW sqrtW (fun _ _ _ => draw6) cfg6 0 scenarios10
      = Except.ok out10 :=
  claim_C10 pGood irrW rpowW sqrtW (fun _ _ _ => draw6) scenarios10 0 cfg6
    (scenario_analysis pGood irrW rpowW sqrtW (fun _ _ _ => draw6) 0 cfg6 scenarios10).1
    out10 (by with_unfolding_all rfl)
